import Mathlib

/-!
# terraform-provider-buildkite: the pipeline resource and its REST client

A shallow embedding of `buildkite/resource_pipeline.go`, `buildkite/pipeline_service.go`
and `buildkite/rest_client.go`.

* Go structs are Lean structures with the same field names.
* `*schema.ResourceData` is a record of the schema's attributes plus the resource id:
  `d.Get(k)` is the projection, `d.Set(k, v)` the record update.
* Remote parties (the GraphQL endpoint, the HTTP transport) are functions handed in
  with the client; every operation returns the calls it issued next to its result.
* Go library routines whose text is not part of the repository (`net/url`,
  the syntax layer of `encoding/json`) are fields of `StdLib`; the struct-directed part
  of `encoding/json` is written out from the struct tags of the source.
-/

namespace Buildkite

set_option autoImplicit false
set_option maxRecDepth 100000

/-! ## JSON values -/

/-- Go `[]byte`. -/
abbrev Bytes := List UInt8

/-- A JSON document as `encoding/json` sees it between the text and the Go value. -/
inductive JSON where
  | null
  | bool (b : Bool)
  | num (text : String)
  | str (s : String)
  | arr (items : List JSON)
  | obj (members : List (String × JSON))
  deriving Repr, Inhabited

/-- First member of an object carrying the key. -/
def JSON.member (k : String) : JSON → Option JSON
  | .obj ms => (ms.find? (fun m => m.1 == k)).map Prod.snd
  | _ => none

/-- Keys of an object, in order. -/
def JSON.keys : JSON → List String
  | .obj ms => ms.map Prod.fst
  | _ => []

/-! ## Data model (resource_pipeline.go:10-57) -/

/-- Struct `SourceProviderSettings` (resource_pipeline.go:23-36). -/
structure SourceProviderSettings where
  TriggerMode : String := ""
  BuildPullRequests : Bool := false
  PullRequestBranchFilterEnabled : Bool := false
  PullRequestBranchFilterConfiguration : String := ""
  SkipPullRequestBuildsForExistingCommits : Bool := false
  BuildPullRequestForks : Bool := false
  PrefixPullRequestForkBranchNames : Bool := false
  BuildTags : Bool := false
  PublishCommitStatus : Bool := false
  PublishCommitStatusPerStep : Bool := false
  SeparatePullRequestStatuses : Bool := false
  PublishBlockedAsPending : Bool := false
  deriving DecidableEq, Repr, Inhabited

/-- Struct `SourceProvider` (resource_pipeline.go:18-20). -/
structure SourceProvider where
  Settings : SourceProviderSettings := {}
  deriving DecidableEq, Repr, Inhabited

/-- Struct `RESTPipeline` (resource_pipeline.go:10-15). -/
structure RESTPipeline where
  Slug : String := ""
  BranchConfiguration : String := ""
  Provider : SourceProvider := {}
  ProviderSettings : SourceProviderSettings := {}
  deriving DecidableEq, Repr, Inhabited

/-- Struct `PipelineNode` (resource_pipeline.go:39-57); `Repository.Url` and `Steps.Yaml`
are the nested one-field structs, flattened. -/
structure PipelineNode where
  DefaultBranch : String := ""
  Description : String := ""
  Id : String := ""
  Name : String := ""
  RepositoryUrl : String := ""
  Slug : String := ""
  StepsYaml : String := ""
  Uuid : String := ""
  WebhookURL : String := ""
  SkipIntermediateBuilds : Bool := false
  SkipIntermediateBuildsBranchFilter : String := ""
  CancelIntermediateBuilds : Bool := false
  CancelIntermediateBuildsBranchFilter : String := ""
  deriving DecidableEq, Repr, Inhabited

/-- The handle `d *schema.ResourceData`: the resource id (`d.Id()`, `d.SetId`) and one
field per attribute of the schema of `resourcePipeline` (resource_pipeline.go:69-173).
`d.Get("k")` is the projection `d.k`; `d.Set("k", v)` is the update `{ d with k := v }`. -/
structure ResourceData where
  id : String := ""
  name : String := ""
  description : String := ""
  repository : String := ""
  webhook_url : String := ""
  slug : String := ""
  steps : String := ""
  default_branch : String := ""
  skip_intermediate_builds : Bool := false
  skip_intermediate_builds_branch_filter : String := ""
  cancel_intermediate_builds : Bool := false
  cancel_intermediate_builds_branch_filter : String := ""
  branch_configuration : String := ""
  trigger_mode : String := ""
  build_pull_requests : Bool := false
  pull_request_branch_filter_enabled : Bool := false
  pull_request_branch_filter_configuration : String := ""
  skip_pull_request_builds_for_existing_commits : Bool := false
  build_pull_request_forks : Bool := false
  prefix_pull_request_fork_branch_names : Bool := false
  build_tags : Bool := false
  publish_commit_status : Bool := false
  publish_commit_status_per_step : Bool := false
  separate_pull_request_statuses : Bool := false
  publish_blocked_as_pending : Bool := false
  deriving DecidableEq, Repr, Inhabited

/-! ## Merge functions and the REST view (resource_pipeline.go:306-357) -/

/-- Function `updatePipeline` (resource_pipeline.go:306-320). The schema has no attribute
`uuid`, so `d.Set("uuid", ...)` stores nothing (its error is dropped by the source). -/
def updatePipeline (d : ResourceData) (t : PipelineNode) : ResourceData :=
  { d with
    id := t.Id
    description := t.Description
    name := t.Name
    repository := t.RepositoryUrl
    slug := t.Slug
    steps := t.StepsYaml
    webhook_url := t.WebhookURL
    default_branch := t.DefaultBranch
    skip_intermediate_builds := t.SkipIntermediateBuilds
    skip_intermediate_builds_branch_filter := t.SkipIntermediateBuildsBranchFilter
    cancel_intermediate_builds := t.CancelIntermediateBuilds
    cancel_intermediate_builds_branch_filter := t.CancelIntermediateBuildsBranchFilter }

/-- Function `updateRESTPipeline` (resource_pipeline.go:322-336): reads
`p.BranchConfiguration` and `p.Provider.Settings`. -/
def updateRESTPipeline (d : ResourceData) (p : RESTPipeline) : ResourceData :=
  { d with
    branch_configuration := p.BranchConfiguration
    trigger_mode := p.Provider.Settings.TriggerMode
    build_pull_requests := p.Provider.Settings.BuildPullRequests
    pull_request_branch_filter_enabled := p.Provider.Settings.PullRequestBranchFilterEnabled
    pull_request_branch_filter_configuration :=
      p.Provider.Settings.PullRequestBranchFilterConfiguration
    skip_pull_request_builds_for_existing_commits :=
      p.Provider.Settings.SkipPullRequestBuildsForExistingCommits
    build_pull_request_forks := p.Provider.Settings.BuildPullRequestForks
    prefix_pull_request_fork_branch_names := p.Provider.Settings.PrefixPullRequestForkBranchNames
    build_tags := p.Provider.Settings.BuildTags
    publish_commit_status := p.Provider.Settings.PublishCommitStatus
    publish_commit_status_per_step := p.Provider.Settings.PublishCommitStatusPerStep
    separate_pull_request_statuses := p.Provider.Settings.SeparatePullRequestStatuses
    publish_blocked_as_pending := p.Provider.Settings.PublishBlockedAsPending }

/-- Function `getRESTPipeline` (resource_pipeline.go:338-357): fills `Slug`,
`BranchConfiguration` and `ProviderSettings`; `Provider` stays the zero value. -/
def getRESTPipeline (d : ResourceData) : RESTPipeline :=
  { Slug := d.slug
    BranchConfiguration := d.branch_configuration
    ProviderSettings :=
      { TriggerMode := d.trigger_mode
        BuildPullRequests := d.build_pull_requests
        PullRequestBranchFilterEnabled := d.pull_request_branch_filter_enabled
        PullRequestBranchFilterConfiguration := d.pull_request_branch_filter_configuration
        SkipPullRequestBuildsForExistingCommits := d.skip_pull_request_builds_for_existing_commits
        BuildPullRequestForks := d.build_pull_request_forks
        PrefixPullRequestForkBranchNames := d.prefix_pull_request_fork_branch_names
        BuildTags := d.build_tags
        PublishCommitStatus := d.publish_commit_status
        PublishCommitStatusPerStep := d.publish_commit_status_per_step
        SeparatePullRequestStatuses := d.separate_pull_request_statuses
        PublishBlockedAsPending := d.publish_blocked_as_pending } }

/-! ## Encoding a `RESTPipeline` (struct tags, resource_pipeline.go:10-36) -/

/-- A string field tagged `omitempty`: left out when empty. -/
def omitemptyStr (key : String) (v : String) : List (String × JSON) :=
  if v = "" then [] else [(key, .str v)]

/-- A bool field tagged `omitempty`: left out when false. -/
def omitemptyBool (key : String) (v : Bool) : List (String × JSON) :=
  if v then [(key, .bool true)] else []

/-- What `encoding/json` writes for a `SourceProviderSettings`: fields in declaration
order under their tag names; the eleven fields tagged `omitempty` are left out at their
empty value (`""`, `false`), `pull_request_branch_filter_configuration` has no such
option and is always written. -/
def encodeSourceProviderSettings (s : SourceProviderSettings) : JSON :=
  .obj (omitemptyStr "trigger_mode" s.TriggerMode
    ++ omitemptyBool "build_pull_requests" s.BuildPullRequests
    ++ omitemptyBool "pull_request_branch_filter_enabled" s.PullRequestBranchFilterEnabled
    ++ [("pull_request_branch_filter_configuration",
          .str s.PullRequestBranchFilterConfiguration)]
    ++ omitemptyBool "skip_pull_request_builds_for_existing_commits"
          s.SkipPullRequestBuildsForExistingCommits
    ++ omitemptyBool "build_pull_request_forks" s.BuildPullRequestForks
    ++ omitemptyBool "prefix_pull_request_fork_branch_names" s.PrefixPullRequestForkBranchNames
    ++ omitemptyBool "build_tags" s.BuildTags
    ++ omitemptyBool "publish_commit_status" s.PublishCommitStatus
    ++ omitemptyBool "publish_commit_status_per_step" s.PublishCommitStatusPerStep
    ++ omitemptyBool "separate_pull_request_statuses" s.SeparatePullRequestStatuses
    ++ omitemptyBool "publish_blocked_as_pending" s.PublishBlockedAsPending)

/-- What `encoding/json` writes for a `SourceProvider`: the one field `settings`. -/
def encodeSourceProvider (p : SourceProvider) : JSON :=
  .obj [("settings", encodeSourceProviderSettings p.Settings)]

/-- What `encoding/json` writes for a `RESTPipeline`. `omitempty` never leaves out a
struct-valued field (a struct is not an "empty value"), so `provider` and
`provider_settings` are always written; `slug` is left out when empty. -/
def encodeRESTPipeline (p : RESTPipeline) : JSON :=
  .obj (omitemptyStr "slug" p.Slug
    ++ [("branch_configuration", .str p.BranchConfiguration),
        ("provider", encodeSourceProvider p.Provider),
        ("provider_settings", encodeSourceProviderSettings p.ProviderSettings)])

/-! ## HTTP values (rest_client.go) -/

/-- An `*http.Request` as built by `NewRequest`: method, resolved URL (rendered),
headers in the order they were set, and the value that was JSON-encoded into the body
(`none` when no body was given: the buffer stays empty). -/
structure Request where
  Method : String
  URL : String
  Header : List (String × String)
  Body : Option JSON
  deriving Repr, Inhabited

/-- What reading a response body to its end yields, as `ioutil.ReadAll` returns it:
the bytes (`none` for a nil slice) and the read error, if any. -/
structure ResponseBody where
  data : Option Bytes
  err : Option String
  deriving DecidableEq, Repr, Inhabited

/-- The fields of an `*http.Response` the client looks at. `Request` is the request
that obtained the response, a pointer in Go (`none` is nil; a response handed back by
the transport has one). -/
structure Response where
  StatusCode : Int
  Request : Option Request
  Body : ResponseBody
  deriving Repr, Inhabited

/-- Struct `ErrorResponse` (rest_client.go:118-122). `Response` is a pointer in the
source: `none` is nil. -/
structure ErrorResponse where
  Response : Option Response
  Message : String
  RawBody : Option Bytes
  deriving Repr, Inhabited

/-- A Go `error` value met in this package: an `*ErrorResponse`, or an error of a
library (transport, URL parsing, JSON decoding, GraphQL), kept as its text. -/
inductive GoError where
  | errorResponse (e : ErrorResponse)
  | lib (text : String)
  deriving Repr, Inhabited

/-- Library routines used by the REST client whose text is outside the repository. -/
structure StdLib where
  /-- Syntax layer of `json.Unmarshal`: the document, or `none` when the bytes are
  not one valid JSON text. -/
  jsonParse : Bytes → Option JSON
  /-- Empty input is not a JSON text ("unexpected end of JSON input"). -/
  jsonParse_nil : jsonParse [] = none
  /-- Syntax layer of `json.NewDecoder(body).Decode`: the next JSON value of the stream,
  or the error (syntax, read error, `io.EOF`). -/
  jsonDecodeStream : ResponseBody → Except GoError JSON
  /-- Function `url.Parse` on a reference: the parsed reference or the error. -/
  urlParse : String → Except GoError String
  /-- The rendering of `base.ResolveReference(rel)`. -/
  resolveReference : String → String → String
  /-- The URL checks of `http.NewRequest(method, url, body)`: the URL of the request
  or the error. -/
  httpNewRequest : String → String → Except GoError String
  /-- What `encoding/json` does to an `http.Response` when it decodes a JSON value
  other than `null` into it. -/
  decodeHTTPResponse : JSON → Response → Response

/-! ## Decoding into structs (struct tags of the source, rules of `encoding/json`) -/

/-- Case folding of one rune as `encoding/json` compares object keys with field names:
ASCII letters ignore case, and the Kelvin sign and the long s fold to `k` and `s`. -/
def foldRune (c : Char) : Char :=
  if 'A' ≤ c ∧ c ≤ 'Z' then Char.ofNat (c.toNat + 32)
  else if c = Char.ofNat 0x212A then 'k'
  else if c = Char.ofNat 0x017F then 's'
  else c

/-- Case-insensitive match of a field name (ASCII) with an object key. -/
def equalFold (name key : String) : Bool :=
  name.toList.map foldRune == key.toList.map foldRune

/-- The field an object key is decoded into: the field whose name equals the key,
otherwise the first field whose name matches it ignoring case, otherwise none. -/
def findField (names : List String) (key : String) : Option String :=
  match names.find? (fun n => n == key) with
  | some n => some n
  | none => names.find? (fun n => equalFold n key)

/-- Decoding a JSON value into a Go `string`: a JSON string is stored, `null` leaves the
field alone, anything else leaves it alone and is a type error. -/
def decodeString (j : JSON) (cur : String) : String × Bool :=
  match j with
  | .str s => (s, true)
  | .null => (cur, true)
  | _ => (cur, false)

/-- Decoding a JSON value into a Go `bool`. -/
def decodeBool (j : JSON) (cur : Bool) : Bool × Bool :=
  match j with
  | .bool b => (b, true)
  | .null => (cur, true)
  | _ => (cur, false)

/-- One member of an object decoded into a `SourceProviderSettings`; the flag is false
when the value has the wrong JSON type for the field. -/
def decodeSettingsMember (s : SourceProviderSettings) (m : String × JSON) :
    SourceProviderSettings × Bool :=
  match findField ["trigger_mode", "build_pull_requests", "pull_request_branch_filter_enabled",
      "pull_request_branch_filter_configuration",
      "skip_pull_request_builds_for_existing_commits", "build_pull_request_forks",
      "prefix_pull_request_fork_branch_names", "build_tags", "publish_commit_status",
      "publish_commit_status_per_step", "separate_pull_request_statuses",
      "publish_blocked_as_pending"] m.1 with
  | some "trigger_mode" =>
      let r := decodeString m.2 s.TriggerMode; ({ s with TriggerMode := r.1 }, r.2)
  | some "build_pull_requests" =>
      let r := decodeBool m.2 s.BuildPullRequests; ({ s with BuildPullRequests := r.1 }, r.2)
  | some "pull_request_branch_filter_enabled" =>
      let r := decodeBool m.2 s.PullRequestBranchFilterEnabled
      ({ s with PullRequestBranchFilterEnabled := r.1 }, r.2)
  | some "pull_request_branch_filter_configuration" =>
      let r := decodeString m.2 s.PullRequestBranchFilterConfiguration
      ({ s with PullRequestBranchFilterConfiguration := r.1 }, r.2)
  | some "skip_pull_request_builds_for_existing_commits" =>
      let r := decodeBool m.2 s.SkipPullRequestBuildsForExistingCommits
      ({ s with SkipPullRequestBuildsForExistingCommits := r.1 }, r.2)
  | some "build_pull_request_forks" =>
      let r := decodeBool m.2 s.BuildPullRequestForks
      ({ s with BuildPullRequestForks := r.1 }, r.2)
  | some "prefix_pull_request_fork_branch_names" =>
      let r := decodeBool m.2 s.PrefixPullRequestForkBranchNames
      ({ s with PrefixPullRequestForkBranchNames := r.1 }, r.2)
  | some "build_tags" =>
      let r := decodeBool m.2 s.BuildTags; ({ s with BuildTags := r.1 }, r.2)
  | some "publish_commit_status" =>
      let r := decodeBool m.2 s.PublishCommitStatus
      ({ s with PublishCommitStatus := r.1 }, r.2)
  | some "publish_commit_status_per_step" =>
      let r := decodeBool m.2 s.PublishCommitStatusPerStep
      ({ s with PublishCommitStatusPerStep := r.1 }, r.2)
  | some "separate_pull_request_statuses" =>
      let r := decodeBool m.2 s.SeparatePullRequestStatuses
      ({ s with SeparatePullRequestStatuses := r.1 }, r.2)
  | some "publish_blocked_as_pending" =>
      let r := decodeBool m.2 s.PublishBlockedAsPending
      ({ s with PublishBlockedAsPending := r.1 }, r.2)
  | _ => (s, true)

/-- Decoding the members of an object one after the other into a struct: a later member
overwrites an earlier one, fields without a member keep their value, and a type error
does not stop the decoding (the flag records that one happened). -/
def decodeMembers {α : Type} (step : α → String × JSON → α × Bool) :
    List (String × JSON) → α → α × Bool
  | [], a => (a, true)
  | m :: ms, a =>
      let r := step a m
      let r2 := decodeMembers step ms r.1
      (r2.1, r.2 && r2.2)

/-- Decoding a JSON value into a struct: an object is decoded member by member, `null`
leaves the struct alone, anything else leaves it alone and is a type error. -/
def decodeStruct {α : Type} (step : α → String × JSON → α × Bool) (j : JSON) (a : α) :
    α × Bool :=
  match j with
  | .obj ms => decodeMembers step ms a
  | .null => (a, true)
  | _ => (a, false)

/-- Decoding into a `SourceProviderSettings`. -/
def decodeSourceProviderSettings (j : JSON) (s : SourceProviderSettings) :
    SourceProviderSettings × Bool :=
  decodeStruct decodeSettingsMember j s

/-- One member of an object decoded into a `SourceProvider` (field `settings`). -/
def decodeProviderMember (p : SourceProvider) (m : String × JSON) : SourceProvider × Bool :=
  match findField ["settings"] m.1 with
  | some _ =>
      let r := decodeSourceProviderSettings m.2 p.Settings; ({ p with Settings := r.1 }, r.2)
  | none => (p, true)

/-- One member of an object decoded into a `RESTPipeline` (fields `slug`,
`branch_configuration`, `provider`, `provider_settings`). -/
def decodePipelineMember (p : RESTPipeline) (m : String × JSON) : RESTPipeline × Bool :=
  match findField ["slug", "branch_configuration", "provider", "provider_settings"] m.1 with
  | some "slug" => let r := decodeString m.2 p.Slug; ({ p with Slug := r.1 }, r.2)
  | some "branch_configuration" =>
      let r := decodeString m.2 p.BranchConfiguration
      ({ p with BranchConfiguration := r.1 }, r.2)
  | some "provider" =>
      let r := decodeStruct decodeProviderMember m.2 p.Provider
      ({ p with Provider := r.1 }, r.2)
  | some "provider_settings" =>
      let r := decodeSourceProviderSettings m.2 p.ProviderSettings
      ({ p with ProviderSettings := r.1 }, r.2)
  | _ => (p, true)

/-- Decoding a JSON value into the `RESTPipeline` handed to `Do`: the fields named by the
document are overwritten, the others keep what the caller put there. -/
def decodeRESTPipeline (j : JSON) (p : RESTPipeline) : RESTPipeline × Bool :=
  decodeStruct decodePipelineMember j p

/-- One member of an object decoded into an `ErrorResponse` (rest_client.go:118-122).
`Message` is tagged `message`; `RawBody` is tagged `-` and never decoded; `Response` has
no tag, so it is decoded under its own name: `null` sets the pointer to nil, any other
value is decoded into the response it points to. -/
def decodeErrorMember (lib : StdLib) (e : ErrorResponse) (m : String × JSON) : ErrorResponse :=
  match findField ["Response", "message"] m.1 with
  | some "Response" =>
      match m.2 with
      | .null => { e with Response := none }
      | j => { e with Response := some (lib.decodeHTTPResponse j (e.Response.getD default)) }
  | some "message" => { e with Message := (decodeString m.2 e.Message).1 }
  | _ => e

/-- Function `json.Unmarshal(data, errorResponse)`: bytes that are not one valid JSON text,
and documents that are not objects, change nothing; an object is decoded member by
member. -/
def unmarshalErrorResponse (lib : StdLib) (data : Bytes) (e : ErrorResponse) : ErrorResponse :=
  match lib.jsonParse data with
  | some (.obj ms) => ms.foldl (decodeErrorMember lib) e
  | _ => e

/-! ## REST client (rest_client.go) -/

/-- Constant `restBaseURL` (rest_client.go:16). -/
def restBaseURL : String := "https://api.buildkite.com/"

/-- Struct `RESTClient` (rest_client.go:20-34). `client` is `(*http.Client).Do`: the
response, or the error when no response was obtained. `Pipelines` is the service bound
to this same client, so its methods take the client itself. -/
structure RESTClient where
  client : Request → Except GoError Response
  baseURL : String
  userAgent : String
  organization : String

/-- Function `NewRESTClient` (rest_client.go:36-49); `version` is the package constant
`Version`, declared outside the three files. -/
def NewRESTClient (version : String) (httpClient : Request → Except GoError Response)
    (organization : String) : RESTClient :=
  { client := httpClient
    baseURL := restBaseURL
    userAgent := "terraform-provider-buildkite/" ++ version
    organization := organization }

/-- Method `RESTClient.NewRequest` (rest_client.go:56-84). Encoding a `RESTPipeline`
cannot fail (strings and booleans only), so the two error exits are those of `url.Parse`
and `http.NewRequest`. -/
def RESTClient.NewRequest (lib : StdLib) (c : RESTClient) (method urlStr : String)
    (body : Option RESTPipeline) : Except GoError Request :=
  match lib.urlParse urlStr with
  | .error err => .error err
  | .ok rel =>
    let u := lib.resolveReference c.baseURL rel
    let buf := body.map encodeRESTPipeline
    match lib.httpNewRequest method u with
    | .error err => .error err
    | .ok reqURL =>
      .ok { Method := method
            URL := reqURL
            Header := [("Content-Type", "application/json")]
              ++ (if c.userAgent ≠ "" then [("User-Agent", c.userAgent)] else [])
            Body := buf }

/-- Method `ErrorResponse.Error` (rest_client.go:124-128), the format
`"%v %v: %d %v"`; `none` is the nil dereference of `r.Response` or of
`r.Response.Request`. -/
def ErrorResponse.Error (r : ErrorResponse) : Option String :=
  match r.Response with
  | none => none
  | some resp =>
    match resp.Request with
    | none => none
    | some request =>
      some (request.Method ++ " " ++ request.URL ++ ": "
        ++ toString resp.StatusCode ++ " " ++ r.Message)

/-- Function `checkResponse` (rest_client.go:130-140); `none` is the nil error. -/
def checkResponse (lib : StdLib) (r : Response) : Option ErrorResponse :=
  if 200 ≤ r.StatusCode ∧ r.StatusCode ≤ 299 then none
  else
    let errorResponse : ErrorResponse :=
      { Response := some r, Message := "", RawBody := r.Body.data }
    match r.Body.err, r.Body.data with
    | none, some data => some (unmarshalErrorResponse lib data errorResponse)
    | _, _ => some errorResponse

/-- The argument `v` of `Do`: nil, an `io.Writer` (with what was written to it so far),
or the `*RESTPipeline` to decode into. -/
inductive Target where
  | nil
  | writer (written : Bytes)
  | pipeline (p : RESTPipeline)
  deriving DecidableEq, Repr, Inhabited

/-- What `Do` hands back: the response, the target after the call, the error. -/
structure DoResult where
  resp : Option Response
  v : Target
  err : Option GoError
  deriving Repr, Inhabited

/-- Method `RESTClient.Do` (rest_client.go:91-115). It sends the request once. A decoding
type error is reported after the document has been decoded, so the target holds the
fields decoded on the way. -/
def RESTClient.Do (lib : StdLib) (c : RESTClient) (req : Request) (v : Target) : DoResult :=
  match c.client req with
  | .error err => { resp := none, v := v, err := some err }
  | .ok resp =>
    match checkResponse lib resp with
    | some e => { resp := some resp, v := v, err := some (.errorResponse e) }
    | none =>
      match v with
      | .nil => { resp := some resp, v := v, err := none }
      | .writer w =>
          { resp := some resp, v := .writer (w ++ resp.Body.data.getD []),
            err := resp.Body.err.map GoError.lib }
      | .pipeline p =>
        match lib.jsonDecodeStream resp.Body with
        | .error err => { resp := some resp, v := v, err := some err }
        | .ok j =>
          let r := decodeRESTPipeline j p
          { resp := some resp, v := .pipeline r.1,
            err := if r.2 then none else some (.lib "json: cannot unmarshal") }

/-! ## Pipelines service (pipeline_service.go) -/

/-- The path of a pipeline, `fmt.Sprintf("v2/organizations/%s/pipelines/%s", org, slug)`. -/
def pipelinePath (organization slug : String) : String :=
  "v2/organizations/" ++ organization ++ "/pipelines/" ++ slug

/-- The `*RESTPipeline` a target points to; `Do` hands back the kind of target it was
given, so the second argument is never used by the callers below. -/
def Target.pipelineOr : Target → RESTPipeline → RESTPipeline
  | .pipeline p, _ => p
  | _, q => q

/-- Result of `Read`: the returned pair, and the requests handed to the transport. -/
structure ReadResult where
  result : Except GoError RESTPipeline
  sent : List Request

/-- Result of `Update`: the caller's struct after the call (`Do` decodes the answer into
it), the error, and the requests handed to the transport. -/
structure UpdateResult where
  pipeline : RESTPipeline
  err : Option GoError
  sent : List Request

/-- Result of `Delete`: the error, and the requests handed to the transport. -/
structure DeleteResult where
  err : Option GoError
  sent : List Request

/-- Method `PipelinesService.Read` (pipeline_service.go:13-28). -/
def PipelinesService.Read (lib : StdLib) (ps : RESTClient) (slug : String) : ReadResult :=
  let u := pipelinePath ps.organization slug
  match ps.NewRequest lib "GET" u none with
  | .error err => { result := .error err, sent := [] }
  | .ok req =>
    let pipeline : RESTPipeline := {}
    let r := ps.Do lib req (.pipeline pipeline)
    match r.err with
    | some err => { result := .error err, sent := [req] }
    | none => { result := .ok (r.v.pipelineOr pipeline), sent := [req] }

/-- Method `PipelinesService.Update` (pipeline_service.go:30-40). -/
def PipelinesService.Update (lib : StdLib) (ps : RESTClient) (pipeline : RESTPipeline) :
    UpdateResult :=
  let u := pipelinePath ps.organization pipeline.Slug
  match ps.NewRequest lib "PATCH" u (some pipeline) with
  | .error err => { pipeline := pipeline, err := some err, sent := [] }
  | .ok req =>
    let r := ps.Do lib req (.pipeline pipeline)
    { pipeline := r.v.pipelineOr pipeline, err := r.err, sent := [req] }

/-- Method `PipelinesService.Delete` (pipeline_service.go:42-52). -/
def PipelinesService.Delete (lib : StdLib) (ps : RESTClient) (slug : String) : DeleteResult :=
  let u := pipelinePath ps.organization slug
  match ps.NewRequest lib "DELETE" u none with
  | .error err => { err := some err, sent := [] }
  | .ok req =>
    let r := ps.Do lib req .nil
    { err := r.err, sent := [req] }

/-! ## Reconciler (resource_pipeline.go:177-304) -/

/-- The variables shared by the `pipelineCreate` and `pipelineUpdate` mutations
(resource_pipeline.go:191-202, 264-275). -/
structure PipelineVars where
  desc : String
  name : String
  repository_url : String
  steps : String
  default_branch : String
  skip_intermediate_builds : Bool
  skip_intermediate_builds_branch_filter : String
  cancel_intermediate_builds : Bool
  cancel_intermediate_builds_branch_filter : String
  deriving DecidableEq, Repr, Inhabited

/-- The map `vars` read from the handle. -/
def pipelineVars (d : ResourceData) : PipelineVars :=
  { desc := d.description
    name := d.name
    repository_url := d.repository
    steps := d.steps
    default_branch := d.default_branch
    skip_intermediate_builds := d.skip_intermediate_builds
    skip_intermediate_builds_branch_filter := d.skip_intermediate_builds_branch_filter
    cancel_intermediate_builds := d.cancel_intermediate_builds
    cancel_intermediate_builds_branch_filter := d.cancel_intermediate_builds_branch_filter }

/-- The GraphQL side: the answer of the endpoint to each operation of this package, the
mutated or queried `PipelineNode` or the error of `Mutate`/`Query`. `organizationID` is
the package function `GetOrganizationID`, declared outside the three files. -/
structure GraphQLClient where
  organizationID : String → Except GoError String
  pipelineCreate : String → PipelineVars → Except GoError PipelineNode
  pipelineUpdate : String → PipelineVars → Except GoError PipelineNode
  node : String → Except GoError PipelineNode

/-- Struct `Client`, the value `m` handed to the four operations. -/
structure Client where
  graphql : GraphQLClient
  rest : RESTClient
  organization : String

/-- A remote call issued by an operation. -/
inductive Call where
  | organizationID (org : String)
  | pipelineCreate (org : String) (vars : PipelineVars)
  | pipelineUpdate (id : String) (vars : PipelineVars)
  | node (id : String)
  | rest (req : Request)
  deriving Repr, Inhabited

/-- Is the call an HTTP request of the REST client? -/
def Call.isREST : Call → Bool
  | .rest _ => true
  | _ => false

/-- What an operation leaves behind: its error (`none` is nil), the handle after the
call, and the remote calls it issued, in order. -/
structure Outcome where
  err : Option GoError
  d : ResourceData
  calls : List Call
  deriving Repr, Inhabited

/-- Function `CreatePipeline` (resource_pipeline.go:178-221). -/
def CreatePipeline (lib : StdLib) (client : Client) (d : ResourceData) : Outcome :=
  match client.graphql.organizationID client.organization with
  | .error err => { err := some err, d := d, calls := [.organizationID client.organization] }
  | .ok id =>
    let vars := pipelineVars d
    let calls := [Call.organizationID client.organization, Call.pipelineCreate id vars]
    match client.graphql.pipelineCreate id vars with
    | .error err => { err := some err, d := d, calls := calls }
    | .ok node =>
      let d1 := updatePipeline d node
      let restPipeline := getRESTPipeline d1
      let r := PipelinesService.Update lib client.rest restPipeline
      match r.err with
      | some err => { err := some err, d := d1, calls := calls ++ r.sent.map Call.rest }
      | none =>
        { err := none, d := updateRESTPipeline d1 r.pipeline,
          calls := calls ++ r.sent.map Call.rest }

/-- Function `ReadPipeline` (resource_pipeline.go:224-252). -/
def ReadPipeline (lib : StdLib) (client : Client) (d : ResourceData) : Outcome :=
  match client.graphql.node d.id with
  | .error err => { err := some err, d := d, calls := [.node d.id] }
  | .ok node =>
    let d1 := updatePipeline d node
    let slug := d1.slug
    let r := PipelinesService.Read lib client.rest slug
    match r.result with
    | .error err => { err := some err, d := d1, calls := Call.node d.id :: r.sent.map Call.rest }
    | .ok restPipeline =>
      { err := none, d := updateRESTPipeline d1 restPipeline,
        calls := Call.node d.id :: r.sent.map Call.rest }

/-- Function `UpdatePipeline` (resource_pipeline.go:255-294). -/
def UpdatePipeline (lib : StdLib) (client : Client) (d : ResourceData) : Outcome :=
  let vars := pipelineVars d
  let calls := [Call.pipelineUpdate d.id vars]
  match client.graphql.pipelineUpdate d.id vars with
  | .error err => { err := some err, d := d, calls := calls }
  | .ok node =>
    let d1 := updatePipeline d node
    let restPipeline := getRESTPipeline d1
    let r := PipelinesService.Update lib client.rest restPipeline
    match r.err with
    | some err => { err := some err, d := d1, calls := calls ++ r.sent.map Call.rest }
    | none =>
      { err := none, d := updateRESTPipeline d1 r.pipeline,
        calls := calls ++ r.sent.map Call.rest }

/-- Function `DeletePipeline` (resource_pipeline.go:297-304). -/
def DeletePipeline (lib : StdLib) (client : Client) (d : ResourceData) : Outcome :=
  let slug := d.slug
  let r := PipelinesService.Delete lib client.rest slug
  { err := r.err, d := d, calls := r.sent.map Call.rest }

/-! ## A reference library

Concrete library routines for running the client on examples. They agree with Go on the
inputs used below: JSON texts made of objects, arrays, ASCII strings with the
two-character escapes, integers and the three literals; pipeline paths made of ASCII
letters, digits, `/`, `-` and `%`. -/

/-- The bytes of an ASCII text. -/
def asciiBytes (s : String) : Bytes :=
  s.toList.map (fun c => UInt8.ofNat c.toNat)

/-- JSON white space: space, tab, line feed, carriage return. -/
def isSpace (b : UInt8) : Bool :=
  b == 0x20 || b == 0x09 || b == 0x0A || b == 0x0D

/-- Drop leading white space. -/
def skipSpace : Bytes → Bytes
  | [] => []
  | b :: bs => if isSpace b then skipSpace bs else b :: bs

/-- The character a two-character escape stands for. -/
def unescape (b : UInt8) : Option Char :=
  if b == 0x22 then some '"'
  else if b == 0x5C then some '\\'
  else if b == 0x2F then some '/'
  else if b == 0x62 then some (Char.ofNat 8)
  else if b == 0x66 then some (Char.ofNat 12)
  else if b == 0x6E then some '\n'
  else if b == 0x72 then some '\r'
  else if b == 0x74 then some '\t'
  else none

/-- The rest of a string after its opening quote: the text, and the bytes after the
closing quote. -/
def scanString : Bytes → List Char → Option (String × Bytes)
  | [], _ => none
  | b :: bs, acc =>
    if b == 0x22 then some (String.mk acc.reverse, bs)
    else if b == 0x5C then
      match bs with
      | [] => none
      | e :: bs2 =>
        match unescape e with
        | some c => scanString bs2 (c :: acc)
        | none => none
    else if b < 0x20 || 0x80 ≤ b then none
    else scanString bs (Char.ofNat b.toNat :: acc)

/-- Leading decimal digits. -/
def scanDigits : Bytes → List Char → List Char × Bytes
  | [], acc => (acc.reverse, [])
  | b :: bs, acc =>
    if 0x30 ≤ b && b ≤ 0x39 then scanDigits bs (Char.ofNat b.toNat :: acc)
    else (acc.reverse, b :: bs)

/-- An integer: an optional minus sign, then `0` or digits not starting with `0`. -/
def scanInt (bs : Bytes) : Option (JSON × Bytes) :=
  let neg := bs.head? == some 0x2D
  let r := scanDigits (if neg then bs.tail else bs) []
  match r.1 with
  | [] => none
  | '0' :: _ :: _ => none
  | ds => some (.num (String.mk (if neg then '-' :: ds else ds)), r.2)

/-- Strip a literal from the front. -/
def stripLiteral (lit : String) (bs : Bytes) : Option Bytes :=
  if (asciiBytes lit).isPrefixOf bs then some (bs.drop lit.length) else none

mutual
/-- One JSON value at the front of the bytes, and the bytes after it. -/
def parseValue : Nat → Bytes → Option (JSON × Bytes)
  | 0, _ => none
  | fuel + 1, bs =>
    match skipSpace bs with
    | [] => none
    | b :: rest =>
      if b == 0x7B then
        match skipSpace rest with
        | [] => none
        | c :: rest2 =>
          if c == 0x7D then some (.obj [], rest2) else parseMembers fuel (c :: rest2) []
      else if b == 0x5B then
        match skipSpace rest with
        | [] => none
        | c :: rest2 =>
          if c == 0x5D then some (.arr [], rest2) else parseItems fuel (c :: rest2) []
      else if b == 0x22 then (scanString rest []).map (fun r => (.str r.1, r.2))
      else if b == 0x74 then (stripLiteral "true" (b :: rest)).map (fun r => (.bool true, r))
      else if b == 0x66 then (stripLiteral "false" (b :: rest)).map (fun r => (.bool false, r))
      else if b == 0x6E then (stripLiteral "null" (b :: rest)).map (fun r => (.null, r))
      else scanInt (b :: rest)
/-- The members of an object after its opening brace, up to the closing brace. -/
def parseMembers : Nat → Bytes → List (String × JSON) → Option (JSON × Bytes)
  | 0, _, _ => none
  | fuel + 1, bs, acc =>
    match skipSpace bs with
    | [] => none
    | q :: rest =>
      if q == 0x22 then
        match scanString rest [] with
        | none => none
        | some (key, afterKey) =>
          match skipSpace afterKey with
          | [] => none
          | colon :: afterColon =>
            if colon == 0x3A then
              match parseValue fuel afterColon with
              | none => none
              | some (v, afterValue) =>
                match skipSpace afterValue with
                | [] => none
                | sep :: more =>
                  if sep == 0x2C then parseMembers fuel more (acc ++ [(key, v)])
                  else if sep == 0x7D then some (.obj (acc ++ [(key, v)]), more)
                  else none
            else none
      else none
/-- The items of an array after its opening bracket, up to the closing bracket. -/
def parseItems : Nat → Bytes → List JSON → Option (JSON × Bytes)
  | 0, _, _ => none
  | fuel + 1, bs, acc =>
    match parseValue fuel bs with
    | none => none
    | some (v, afterValue) =>
      match skipSpace afterValue with
      | [] => none
      | sep :: more =>
        if sep == 0x2C then parseItems fuel more (acc ++ [v])
        else if sep == 0x5D then some (.arr (acc ++ [v]), more)
        else none
end

/-- The whole input as one JSON text. -/
def refJSONParse (data : Bytes) : Option JSON :=
  match parseValue (2 * data.length + 2) data with
  | some (j, rest) => if (skipSpace rest).isEmpty then some j else none
  | none => none


/-- The next JSON value of a body read as a stream. -/
def refJSONDecodeStream (body : ResponseBody) : Except GoError JSON :=
  match parseValue (2 * (body.data.getD []).length + 2) (body.data.getD []) with
  | some (j, _) => .ok j
  | none => .error (.lib (body.err.getD "json: no value in the stream"))

/-- Is the character a hexadecimal digit? -/
def isHexDigit (c : Char) : Bool :=
  ('0' ≤ c && c ≤ '9') || ('a' ≤ c && c ≤ 'f') || ('A' ≤ c && c ≤ 'F')

/-- Is every `%` followed by two hexadecimal digits? -/
def validEscapes : List Char → Bool
  | [] => true
  | c :: rest =>
    if c = '%' then
      match rest with
      | a :: b :: rest2 => isHexDigit a && isHexDigit b && validEscapes rest2
      | _ => false
    else validEscapes rest

/-- Function `url.Parse` on a path: an ASCII control character or a `%` that does not start
an escape is an error. -/
def refURLParse (s : String) : Except GoError String :=
  if s.toList.any (fun c => c.toNat < 0x20 || c.toNat == 0x7F) then
    .error (.lib "net/url: invalid control character in URL")
  else if validEscapes s.toList then .ok s
  else .error (.lib "invalid URL escape")

/-- The reference library. -/
def refLib : StdLib :=
  { jsonParse := refJSONParse
    jsonParse_nil := rfl
    jsonDecodeStream := refJSONDecodeStream
    urlParse := refURLParse
    resolveReference := fun base rel => base ++ rel
    httpNewRequest := fun _ url => .ok url
    decodeHTTPResponse := fun _ r => r }

/-! ## Field ownership -/

/-- The attributes `updatePipeline` writes, laid out as a `PipelineNode`: the id, name,
description, repository, slug, steps, webhook_url, default_branch and the four
skip/cancel intermediate-build settings. `Uuid`, which the handle does not store, is
empty. -/
def graphqlOwned (d : ResourceData) : PipelineNode :=
  { DefaultBranch := d.default_branch
    Description := d.description
    Id := d.id
    Name := d.name
    RepositoryUrl := d.repository
    Slug := d.slug
    StepsYaml := d.steps
    Uuid := ""
    WebhookURL := d.webhook_url
    SkipIntermediateBuilds := d.skip_intermediate_builds
    SkipIntermediateBuildsBranchFilter := d.skip_intermediate_builds_branch_filter
    CancelIntermediateBuilds := d.cancel_intermediate_builds
    CancelIntermediateBuildsBranchFilter := d.cancel_intermediate_builds_branch_filter }

/-- The attributes `updateRESTPipeline` writes: `branch_configuration` and the twelve
provider/trigger settings. -/
def restOwned (d : ResourceData) : String × SourceProviderSettings :=
  (d.branch_configuration,
   { TriggerMode := d.trigger_mode
     BuildPullRequests := d.build_pull_requests
     PullRequestBranchFilterEnabled := d.pull_request_branch_filter_enabled
     PullRequestBranchFilterConfiguration := d.pull_request_branch_filter_configuration
     SkipPullRequestBuildsForExistingCommits := d.skip_pull_request_builds_for_existing_commits
     BuildPullRequestForks := d.build_pull_request_forks
     PrefixPullRequestForkBranchNames := d.prefix_pull_request_fork_branch_names
     BuildTags := d.build_tags
     PublishCommitStatus := d.publish_commit_status
     PublishCommitStatusPerStep := d.publish_commit_status_per_step
     SeparatePullRequestStatuses := d.separate_pull_request_statuses
     PublishBlockedAsPending := d.publish_blocked_as_pending })

/-- The handle whose GraphQL-owned attributes are those of the node and whose REST-owned
attributes are those of the pair. -/
def ofOwned (g : PipelineNode) (r : String × SourceProviderSettings) : ResourceData :=
  updateRESTPipeline (updatePipeline {} g) { BranchConfiguration := r.1, Provider := ⟨r.2⟩ }

/-- The handle of a run that follows another one under an unchanged declaration: the
computed attributes (`slug`, `webhook_url`) and the id are those the earlier run left,
every declared attribute is as declared. -/
def redeclare (declared observed : ResourceData) : ResourceData :=
  { declared with
    id := observed.id
    slug := observed.slug
    webhook_url := observed.webhook_url }

/-- The needle occurs in the text. -/
def occursIn (needle text : String) : Prop :=
  needle.toList <:+: text.toList

/-- The HTTP request of a REST call. -/
def Call.request? : Call → Option Request
  | .rest req => some req
  | _ => none

/-- The `provider_settings` object of a request body. -/
def Request.providerSettings (req : Request) : Option JSON :=
  req.Body.bind (JSON.member "provider_settings")

/-! ## Example values -/

/-- The attribute values of a declaration that sets nothing: the `Default` entries of
the schema (resource_pipeline.go:120-160), the zero value elsewhere. -/
def schemaDefaults : ResourceData :=
  { trigger_mode := "code"
    build_pull_requests := true
    skip_pull_request_builds_for_existing_commits := true
    prefix_pull_request_fork_branch_names := true
    publish_commit_status := true }

/-- The declaration of the scenario: name `api`, repository `git@host/api.git`, steps
`script: true`, `build_pull_requests` false. -/
def declaredApi : ResourceData :=
  { schemaDefaults with
    name := "api"
    repository := "git@host/api.git"
    steps := "script: true"
    build_pull_requests := false }

/-- A declaration whose REST-owned attributes are neither zero values nor schema
defaults: branch configuration `main`, trigger mode `fork`, tags built. -/
def declaredMain : ResourceData :=
  { schemaDefaults with
    name := "api"
    repository := "git@host/api.git"
    steps := "script: true"
    branch_configuration := "main"
    trigger_mode := "fork"
    build_tags := true }

/-- A transport that answers every request with the given status and body. -/
def answering (status : Int) (body : String) (req : Request) : Except GoError Response :=
  .ok { StatusCode := status, Request := some req,
        Body := { data := some (asciiBytes body), err := none } }

/-- A REST client of organization `acme` over a transport. -/
def acmeREST (transport : Request → Except GoError Response) : RESTClient :=
  NewRESTClient "0.0.1" transport "acme"

/-- The node the example endpoint answers a mutation with: the variables echoed, with an
id and a slug. -/
def echoNode (id : String) (vars : PipelineVars) : PipelineNode :=
  { DefaultBranch := vars.default_branch
    Description := vars.desc
    Id := id
    Name := vars.name
    RepositoryUrl := vars.repository_url
    Slug := vars.name
    StepsYaml := vars.steps
    Uuid := "uuid-1"
    WebhookURL := "https://webhook.example/1"
    SkipIntermediateBuilds := vars.skip_intermediate_builds
    SkipIntermediateBuildsBranchFilter := vars.skip_intermediate_builds_branch_filter
    CancelIntermediateBuilds := vars.cancel_intermediate_builds
    CancelIntermediateBuildsBranchFilter := vars.cancel_intermediate_builds_branch_filter }

/-- A GraphQL endpoint that accepts every operation. -/
def acceptingGraphQL : GraphQLClient :=
  { organizationID := fun _ => .ok "org-1"
    pipelineCreate := fun _ vars => .ok (echoNode "pipeline-1" vars)
    pipelineUpdate := fun id vars => .ok (echoNode id vars)
    node := fun id => .ok { Id := id, Name := "api", Slug := "api" } }

/-- A GraphQL endpoint that rejects every operation. -/
def rejectingGraphQL : GraphQLClient :=
  { organizationID := fun _ => .ok "org-1"
    pipelineCreate := fun _ _ => .error (.lib "graphql: rejected")
    pipelineUpdate := fun _ _ => .error (.lib "graphql: rejected")
    node := fun _ => .error (.lib "graphql: rejected") }

/-- A 404 answer to a `GET` of the pipeline `api`, with the given body. -/
def notFound (body : String) : Response :=
  { StatusCode := 404
    Request := some
      { Method := "GET", URL := "https://api.buildkite.com/v2/organizations/acme/pipelines/api",
        Header := [], Body := none }
    Body := { data := some (asciiBytes body), err := none } }

/-- A REST answer that echoes the settings of `declaredMain`. -/
def echoMain : String :=
  "\x7b\"slug\":\"api\",\"branch_configuration\":\"main\",\"provider\":\x7b\"settings\":"
    ++ "\x7b\"trigger_mode\":\"fork\",\"build_tags\":true,\"build_pull_requests\":true\x7d\x7d\x7d"

/-- A client of organization `acme`. -/
def acmeClient (graphql : GraphQLClient) (transport : Request → Except GoError Response) :
    Client :=
  { graphql := graphql, rest := acmeREST transport, organization := "acme" }

/-! ## Theorems -/

/-! ### The REST client -/

theorem checkResponse_eq_none_iff (lib : StdLib) (r : Response) :
    checkResponse lib r = none ↔ 200 ≤ r.StatusCode ∧ r.StatusCode ≤ 299 := by
  unfold checkResponse
  by_cases h : 200 ≤ r.StatusCode ∧ r.StatusCode ≤ 299
  · simp [h]
  · simp only [h, if_false, false_iff, iff_false]
    cases r.Body.err <;> cases r.Body.data <;> simp

theorem foldl_decodeErrorMember_RawBody (lib : StdLib) (ms : List (String × JSON))
    (e : ErrorResponse) : (ms.foldl (decodeErrorMember lib) e).RawBody = e.RawBody := by
  induction ms generalizing e with
  | nil => rfl
  | cons m ms ih =>
    rw [List.foldl_cons, ih]
    unfold decodeErrorMember
    split
    · split <;> rfl
    · rfl
    · rfl

theorem unmarshalErrorResponse_RawBody (lib : StdLib) (data : Bytes) (e : ErrorResponse) :
    (unmarshalErrorResponse lib data e).RawBody = e.RawBody := by
  unfold unmarshalErrorResponse
  split
  · exact foldl_decodeErrorMember_RawBody lib _ e
  · rfl

/-- Outside [200,299] the error returned by `checkResponse` holds the bytes read from the
body, whatever the body is. -/
theorem checkResponse_RawBody (lib : StdLib) (r : Response) (e : ErrorResponse)
    (h : checkResponse lib r = some e) : e.RawBody = r.Body.data := by
  unfold checkResponse at h
  split at h
  · cases h
  · split at h
    · cases h
      rw [unmarshalErrorResponse_RawBody]
    · cases h; rfl

theorem member_eq_none (ms : List (String × JSON)) (k : String)
    (h : ∀ m ∈ ms, m.1 ≠ k) : (JSON.obj ms).member k = none := by
  simp only [JSON.member, Option.map_eq_none', List.find?_eq_none, beq_iff_eq]
  exact h

theorem mem_omitemptyBool (key : String) (v : Bool) (m : String × JSON)
    (h : m ∈ omitemptyBool key v) : m.1 = key ∧ v = true := by
  unfold omitemptyBool at h
  split at h
  · rename_i hv
    simp only [List.mem_singleton] at h
    rw [h]
    exact ⟨rfl, hv⟩
  · cases h

theorem mem_omitemptyStr (key : String) (v : String) (m : String × JSON)
    (h : m ∈ omitemptyStr key v) : m.1 = key := by
  unfold omitemptyStr at h
  split at h
  · cases h
  · simp only [List.mem_singleton] at h
    rw [h]

/-- Whatever else is declared, a `SourceProviderSettings` with `BuildPullRequests` false is
encoded without a `build_pull_requests` member. -/
theorem encode_omits_false_build_pull_requests (s : SourceProviderSettings)
    (h : s.BuildPullRequests = false) :
    (encodeSourceProviderSettings s).member "build_pull_requests" = none := by
  unfold encodeSourceProviderSettings
  apply member_eq_none
  intro m hm
  simp only [List.mem_append, List.mem_singleton, or_assoc] at hm
  rcases hm with h1 | h1 | h1 | h1 | h1 | h1 | h1 | h1 | h1 | h1 | h1 | h1
  · rw [mem_omitemptyStr _ _ _ h1]; decide
  · have h2 := (mem_omitemptyBool _ _ _ h1).2
    rw [h] at h2
    cases h2
  · rw [(mem_omitemptyBool _ _ _ h1).1]; decide
  · rw [h1]
    show "pull_request_branch_filter_configuration" ≠ "build_pull_requests"
    decide
  · rw [(mem_omitemptyBool _ _ _ h1).1]; decide
  · rw [(mem_omitemptyBool _ _ _ h1).1]; decide
  · rw [(mem_omitemptyBool _ _ _ h1).1]; decide
  · rw [(mem_omitemptyBool _ _ _ h1).1]; decide
  · rw [(mem_omitemptyBool _ _ _ h1).1]; decide
  · rw [(mem_omitemptyBool _ _ _ h1).1]; decide
  · rw [(mem_omitemptyBool _ _ _ h1).1]; decide
  · rw [(mem_omitemptyBool _ _ _ h1).1]; decide

/-- C1, at the declaration of the scenario (`build_pull_requests` false): the one REST
request `CreatePipeline` issues is a PATCH whose `provider_settings` object has five
members, and `build_pull_requests` is not among them, so the declared `false` is not
sent. -/
theorem create_patch_omits_false_build_pull_requests :
    ((CreatePipeline refLib (acmeClient acceptingGraphQL (answering 200 "\x7b\x7d"))
        declaredApi).calls.filterMap Call.request?).map
      (fun req => (req.Method, req.URL, req.providerSettings.map JSON.keys,
        req.providerSettings.bind (JSON.member "build_pull_requests")))
    = [("PATCH", "https://api.buildkite.com/v2/organizations/acme/pipelines/api",
        some ["trigger_mode", "pull_request_branch_filter_configuration",
          "skip_pull_request_builds_for_existing_commits",
          "prefix_pull_request_fork_branch_names", "publish_commit_status"],
        none)] := by
  rfl

/-- C2, at a 404 answer whose body is the JSON text `{"Response":null}`: the error
returned by `checkResponse` has a nil `Response` (and so cannot be rendered), though it
was built from the response; its `RawBody` is the body. -/
theorem checkResponse_loses_response :
    (checkResponse refLib (notFound "\x7b\"Response\":null\x7d")).map
      (fun e => (e.Response.isSome, e.Error, e.RawBody))
    = some (false, none, some (asciiBytes "\x7b\"Response\":null\x7d")) := by
  rfl

theorem occursIn_of_eq (needle text : String) (pre post : List Char)
    (h : text.toList = pre ++ needle.toList ++ post) : occursIn needle text :=
  ⟨pre, post, h.symm⟩

theorem rendered_toList (M U S T : String) :
    (M ++ " " ++ U ++ ": " ++ S ++ " " ++ T).toList
      = M.toList ++ [' '] ++ U.toList ++ [':', ' '] ++ S.toList ++ [' '] ++ T.toList := by
  simp only [String.toList, String.data_append]

theorem rendered_occurs (M U S T : String) :
    occursIn M (M ++ " " ++ U ++ ": " ++ S ++ " " ++ T)
    ∧ occursIn U (M ++ " " ++ U ++ ": " ++ S ++ " " ++ T)
    ∧ occursIn S (M ++ " " ++ U ++ ": " ++ S ++ " " ++ T)
    ∧ occursIn T (M ++ " " ++ U ++ ": " ++ S ++ " " ++ T) := by
  refine ⟨?_, ?_, ?_, ?_⟩
  · exact occursIn_of_eq _ _ [] ([' '] ++ U.toList ++ [':', ' '] ++ S.toList ++ [' '] ++ T.toList)
      (by rw [rendered_toList]; simp [List.append_assoc])
  · exact occursIn_of_eq _ _ (M.toList ++ [' ']) ([':', ' '] ++ S.toList ++ [' '] ++ T.toList)
      (by rw [rendered_toList]; simp [List.append_assoc])
  · exact occursIn_of_eq _ _ (M.toList ++ [' '] ++ U.toList ++ [':', ' ']) ([' '] ++ T.toList)
      (by rw [rendered_toList]; simp [List.append_assoc])
  · exact occursIn_of_eq _ _ (M.toList ++ [' '] ++ U.toList ++ [':', ' '] ++ S.toList ++ [' ']) []
      (by rw [rendered_toList]; simp [List.append_assoc])

theorem checkResponse_message (lib : StdLib) (r : Response) (data : Bytes) (T : String)
    (hs : ¬ (200 ≤ r.StatusCode ∧ r.StatusCode ≤ 299)) (hb : r.Body = ⟨some data, none⟩)
    (hj : lib.jsonParse data = some (.obj [("message", .str T)])) :
    checkResponse lib r = some ⟨some r, T, some data⟩ := by
  unfold checkResponse
  rw [if_neg hs, hb]
  simp only [unmarshalErrorResponse, hj, List.foldl_cons, List.foldl_nil]
  rfl

/-- C3: an `ErrorResponse` built from a response with request method `M`, request URL `U`
and status code `S`, with message `T`, renders as exactly `M U: S T`, and the rendering
contains the method, the URL, the decimal status code and the message. For a 404 answer
whose body is the document `{"message":"not found"}`, the error `checkResponse` returns
renders as `M U: 404 not found` and contains the method, the URL, `404` and
`not found`. -/
theorem errorResponse_error_renders :
    (∀ (S : Int) (request : Request) (body : ResponseBody) (T : String) (raw : Option Bytes),
      ∃ out, ErrorResponse.Error ⟨some ⟨S, some request, body⟩, T, raw⟩ = some out
        ∧ out = request.Method ++ " " ++ request.URL ++ ": " ++ toString S ++ " " ++ T
        ∧ occursIn request.Method out ∧ occursIn request.URL out
        ∧ occursIn (toString S) out ∧ occursIn T out)
    ∧ (∀ (lib : StdLib) (request : Request) (data : Bytes),
        lib.jsonParse data = some (.obj [("message", .str "not found")]) →
        ∃ e out, checkResponse lib ⟨404, some request, ⟨some data, none⟩⟩ = some e
          ∧ e.Error = some out
          ∧ out = request.Method ++ " " ++ request.URL ++ ": 404 not found"
          ∧ occursIn request.Method out ∧ occursIn request.URL out
          ∧ occursIn "404" out ∧ occursIn "not found" out) := by
  constructor
  · intro S request body T raw
    exact ⟨_, rfl, rfl, rendered_occurs _ _ _ _⟩
  · intro lib request data hj
    refine ⟨_, request.Method ++ " " ++ request.URL ++ ": " ++ "404" ++ " " ++ "not found",
      checkResponse_message lib _ data "not found"
        (show ¬ ((200 : Int) ≤ 404 ∧ (404 : Int) ≤ 299) by decide) rfl hj, rfl, ?_, ?_⟩
    · simp only [String.append_assoc]
      rfl
    · exact rendered_occurs _ _ _ _

/-- C3 at the 404 answer to `GET https://api.buildkite.com/v2/organizations/acme/pipelines/api`
with body `{"message":"not found"}`, parsed by the reference library. -/
theorem errorResponse_error_renders_witness :
    refLib.jsonParse (asciiBytes "\x7b\"message\":\"not found\"\x7d")
        = some (.obj [("message", .str "not found")])
    ∧ ∃ e out, checkResponse refLib (notFound "\x7b\"message\":\"not found\"\x7d") = some e
        ∧ e.Error = some out
        ∧ out = "GET" ++ " " ++ "https://api.buildkite.com/v2/organizations/acme/pipelines/api"
            ++ ": 404 not found"
        ∧ occursIn "GET" out
        ∧ occursIn "https://api.buildkite.com/v2/organizations/acme/pipelines/api" out
        ∧ occursIn "404" out ∧ occursIn "not found" out :=
  ⟨rfl, errorResponse_error_renders.2 refLib
    { Method := "GET", URL := "https://api.buildkite.com/v2/organizations/acme/pipelines/api",
      Header := [], Body := none }
    (asciiBytes "\x7b\"message\":\"not found\"\x7d") rfl⟩

/-- C4: for a status outside [200,299] and a body that is not valid JSON (the empty body
included), `checkResponse` returns an `ErrorResponse` built from the response, with the
empty message and the body bytes as `RawBody`. -/
theorem checkResponse_invalid_json (lib : StdLib) (r : Response) (data : Bytes)
    (hs : ¬ (200 ≤ r.StatusCode ∧ r.StatusCode ≤ 299)) (hb : r.Body = ⟨some data, none⟩)
    (hj : lib.jsonParse data = none ∨ data = []) :
    checkResponse lib r = some ⟨some r, "", some data⟩ := by
  have hj2 : lib.jsonParse data = none := by
    rcases hj with h | h
    · exact h
    · rw [h]; exact lib.jsonParse_nil
  unfold checkResponse
  rw [if_neg hs, hb]
  simp only [unmarshalErrorResponse, hj2]

/-- C4 at a 502 answer whose body is the text `<html>Bad Gateway</html>`. -/
theorem checkResponse_invalid_json_witness :
    checkResponse refLib
        { StatusCode := 502
          Request := some { Method := "PATCH", URL := "https://api.buildkite.com/v2/x",
                            Header := [], Body := none }
          Body := ⟨some (asciiBytes "<html>Bad Gateway</html>"), none⟩ }
      = some ⟨some
          { StatusCode := 502
            Request := some { Method := "PATCH", URL := "https://api.buildkite.com/v2/x",
                              Header := [], Body := none }
            Body := ⟨some (asciiBytes "<html>Bad Gateway</html>"), none⟩ },
          "", some (asciiBytes "<html>Bad Gateway</html>")⟩ :=
  checkResponse_invalid_json refLib _ _ (by decide) rfl (Or.inl rfl)

/-! ### The merge functions -/

theorem graphqlOwned_updatePipeline (d : ResourceData) (t : PipelineNode) :
    graphqlOwned (updatePipeline d t) = { t with Uuid := "" } := rfl

theorem restOwned_updatePipeline (d : ResourceData) (t : PipelineNode) :
    restOwned (updatePipeline d t) = restOwned d := rfl

theorem graphqlOwned_updateRESTPipeline (d : ResourceData) (p : RESTPipeline) :
    graphqlOwned (updateRESTPipeline d p) = graphqlOwned d := rfl

theorem restOwned_updateRESTPipeline (d : ResourceData) (p : RESTPipeline) :
    restOwned (updateRESTPipeline d p) = (p.BranchConfiguration, p.Provider.Settings) := rfl

theorem eq_of_owned_eq (d d2 : ResourceData) (hg : graphqlOwned d = graphqlOwned d2)
    (hr : restOwned d = restOwned d2) : d = d2 := by
  cases d
  cases d2
  simp only [graphqlOwned, restOwned, PipelineNode.mk.injEq, Prod.mk.injEq,
    SourceProviderSettings.mk.injEq] at hg hr
  simp only [ResourceData.mk.injEq]
  tauto

/-! ### The four operations -/

/-- C5, amended: when the GraphQL create succeeds and the REST update that follows fails,
`CreatePipeline` returns the error of the update and leaves the handle with the id and
the GraphQL-owned attributes taken from the GraphQL response and the REST-owned
attributes exactly as they were before the call. -/
theorem createPipeline_rest_failure (lib : StdLib) (client : Client) (d : ResourceData)
    (id : String) (node : PipelineNode) (err : GoError)
    (hid : client.graphql.organizationID client.organization = .ok id)
    (hc : client.graphql.pipelineCreate id (pipelineVars d) = .ok node)
    (hr : (PipelinesService.Update lib client.rest
            (getRESTPipeline (updatePipeline d node))).err = some err) :
    (CreatePipeline lib client d).err = some err
    ∧ graphqlOwned (CreatePipeline lib client d).d = { node with Uuid := "" }
    ∧ restOwned (CreatePipeline lib client d).d = restOwned d := by
  have h : CreatePipeline lib client d
      = { err := some err, d := updatePipeline d node,
          calls := [Call.organizationID client.organization,
              Call.pipelineCreate id (pipelineVars d)]
            ++ (PipelinesService.Update lib client.rest
                (getRESTPipeline (updatePipeline d node))).sent.map Call.rest } := by
    simp only [CreatePipeline, hid, hc, hr]
  rw [h]
  exact ⟨rfl, rfl, rfl⟩

/-- C5, amended, at the declaration `declaredMain` with a REST endpoint that answers
500. -/
theorem createPipeline_rest_failure_witness :
    ∃ err,
      (PipelinesService.Update refLib (acmeClient acceptingGraphQL (answering 500 "oops")).rest
        (getRESTPipeline (updatePipeline declaredMain
          (echoNode "pipeline-1" (pipelineVars declaredMain))))).err = some err
      ∧ (CreatePipeline refLib (acmeClient acceptingGraphQL (answering 500 "oops"))
          declaredMain).err = some err
      ∧ graphqlOwned (CreatePipeline refLib (acmeClient acceptingGraphQL (answering 500 "oops"))
          declaredMain).d
        = { echoNode "pipeline-1" (pipelineVars declaredMain) with Uuid := "" }
      ∧ restOwned (CreatePipeline refLib (acmeClient acceptingGraphQL (answering 500 "oops"))
          declaredMain).d = restOwned declaredMain :=
  ⟨_, rfl, createPipeline_rest_failure refLib (acmeClient acceptingGraphQL (answering 500 "oops"))
    declaredMain "org-1" (echoNode "pipeline-1" (pipelineVars declaredMain)) _ rfl rfl rfl⟩

/-- C5 as stated fails: with the declaration `declaredMain`, a GraphQL create that
succeeds and a REST update that fails (status 500), `CreatePipeline` returns an error
after one PATCH and the REST-owned attributes of the handle are the declared ones
(`main`, `fork`, tags built), which are neither unset nor the schema defaults. -/
theorem createPipeline_rest_failure_not_default :
    (CreatePipeline refLib (acmeClient acceptingGraphQL (answering 500 "oops"))
        declaredMain).err.isSome = true
    ∧ ((CreatePipeline refLib (acmeClient acceptingGraphQL (answering 500 "oops"))
        declaredMain).calls.filterMap Call.request?).map (fun req => req.Method) = ["PATCH"]
    ∧ (CreatePipeline refLib (acmeClient acceptingGraphQL (answering 500 "oops"))
        declaredMain).d.slug = "api"
    ∧ (CreatePipeline refLib (acmeClient acceptingGraphQL (answering 500 "oops"))
        declaredMain).d.branch_configuration = "main"
    ∧ (CreatePipeline refLib (acmeClient acceptingGraphQL (answering 500 "oops"))
        declaredMain).d.trigger_mode = "fork"
    ∧ (CreatePipeline refLib (acmeClient acceptingGraphQL (answering 500 "oops"))
        declaredMain).d.build_tags = true
    ∧ restOwned (CreatePipeline refLib (acmeClient acceptingGraphQL (answering 500 "oops"))
        declaredMain).d ≠ restOwned {}
    ∧ restOwned (CreatePipeline refLib (acmeClient acceptingGraphQL (answering 500 "oops"))
        declaredMain).d ≠ restOwned schemaDefaults := by
  decide

/-- C6: when the GraphQL mutation of `CreatePipeline` fails, and when that of
`UpdatePipeline` fails, the operation returns the error of the mutation, issues no REST
request, and leaves the handle as it was. -/
theorem graphql_failure_leaves_state (lib : StdLib) (client : Client) (d : ResourceData)
    (err : GoError) :
    ((∃ id, client.graphql.organizationID client.organization = .ok id
        ∧ client.graphql.pipelineCreate id (pipelineVars d) = .error err) →
      (CreatePipeline lib client d).err = some err
      ∧ (CreatePipeline lib client d).d = d
      ∧ ∀ c ∈ (CreatePipeline lib client d).calls, c.isREST = false)
    ∧ (client.graphql.pipelineUpdate d.id (pipelineVars d) = .error err →
      (UpdatePipeline lib client d).err = some err
      ∧ (UpdatePipeline lib client d).d = d
      ∧ ∀ c ∈ (UpdatePipeline lib client d).calls, c.isREST = false) := by
  constructor
  · rintro ⟨id, hid, hc⟩
    have h : CreatePipeline lib client d
        = { err := some err, d := d,
            calls := [Call.organizationID client.organization,
              Call.pipelineCreate id (pipelineVars d)] } := by
      simp only [CreatePipeline, hid, hc]
    rw [h]
    refine ⟨rfl, rfl, ?_⟩
    intro c hmem
    simp only [List.mem_cons, List.mem_singleton, List.not_mem_nil, or_false] at hmem
    rcases hmem with h | h <;> rw [h] <;> rfl
  · intro hu
    have h : UpdatePipeline lib client d
        = { err := some err, d := d, calls := [Call.pipelineUpdate d.id (pipelineVars d)] } := by
      simp only [UpdatePipeline, hu]
    rw [h]
    refine ⟨rfl, rfl, ?_⟩
    intro c hmem
    simp only [List.mem_singleton] at hmem
    rw [hmem]
    rfl

/-- C6 at the declaration `declaredMain` with a GraphQL endpoint that rejects both
mutations. -/
theorem graphql_failure_leaves_state_witness :
    ((CreatePipeline refLib (acmeClient rejectingGraphQL (answering 200 "\x7b\x7d"))
          declaredMain).err = some (.lib "graphql: rejected")
      ∧ (CreatePipeline refLib (acmeClient rejectingGraphQL (answering 200 "\x7b\x7d"))
          declaredMain).d = declaredMain
      ∧ ∀ c ∈ (CreatePipeline refLib (acmeClient rejectingGraphQL (answering 200 "\x7b\x7d"))
          declaredMain).calls, c.isREST = false)
    ∧ ((UpdatePipeline refLib (acmeClient rejectingGraphQL (answering 200 "\x7b\x7d"))
          declaredMain).err = some (.lib "graphql: rejected")
      ∧ (UpdatePipeline refLib (acmeClient rejectingGraphQL (answering 200 "\x7b\x7d"))
          declaredMain).d = declaredMain
      ∧ ∀ c ∈ (UpdatePipeline refLib (acmeClient rejectingGraphQL (answering 200 "\x7b\x7d"))
          declaredMain).calls, c.isREST = false) :=
  ⟨(graphql_failure_leaves_state refLib (acmeClient rejectingGraphQL (answering 200 "\x7b\x7d"))
      declaredMain (.lib "graphql: rejected")).1 ⟨"org-1", rfl, rfl⟩,
   (graphql_failure_leaves_state refLib (acmeClient rejectingGraphQL (answering 200 "\x7b\x7d"))
      declaredMain (.lib "graphql: rejected")).2 rfl⟩

theorem newRequest_ok (lib : StdLib) (c : RESTClient) (method urlStr : String)
    (body : Option RESTPipeline) (req : Request)
    (h : c.NewRequest lib method urlStr body = .ok req) :
    req.Method = method ∧ req.Body = body.map encodeRESTPipeline
    ∧ ∃ rel, lib.urlParse urlStr = .ok rel
        ∧ lib.httpNewRequest method (lib.resolveReference c.baseURL rel) = .ok req.URL := by
  unfold RESTClient.NewRequest at h
  split at h
  · cases h
  · rename_i rel hrel
    simp only at h
    split at h
    · cases h
    · rename_i reqURL hurl
      cases h
      exact ⟨rfl, rfl, rel, hrel, hurl⟩

theorem do_nil_err_none_iff (lib : StdLib) (c : RESTClient) (req : Request) :
    (c.Do lib req .nil).err = none
      ↔ ∃ resp, c.client req = .ok resp ∧ 200 ≤ resp.StatusCode ∧ resp.StatusCode ≤ 299 := by
  unfold RESTClient.Do
  cases hc : c.client req with
  | error e => simp
  | ok resp =>
    simp only [Except.ok.injEq, exists_eq_left']
    cases hk : checkResponse lib resp with
    | none =>
      simp only [true_iff]
      exact (checkResponse_eq_none_iff lib resp).1 hk
    | some e =>
      simp only [reduceCtorEq, false_iff]
      intro h
      rw [(checkResponse_eq_none_iff lib resp).2 h] at hk
      cases hk

theorem read_sent (lib : StdLib) (ps : RESTClient) (slug : String) :
    (PipelinesService.Read lib ps slug).sent
      = match ps.NewRequest lib "GET" (pipelinePath ps.organization slug) none with
        | .ok req => [req]
        | .error _ => [] := by
  unfold PipelinesService.Read
  cases h : ps.NewRequest lib "GET" (pipelinePath ps.organization slug) none with
  | error e => simp only [h]
  | ok req =>
    simp only [h]
    split <;> rfl

/-- C7: after a successful GraphQL read, `ReadPipeline` issues the REST read that
`PipelinesService.Read` makes for the slug of the GraphQL response (one `GET` of
`v2/organizations/{org}/pipelines/{that slug}` when the request can be built), whatever
slug the handle held before; and when that REST read fails, `ReadPipeline` returns its
error with the GraphQL-owned attributes of the handle equal to the GraphQL response and
the REST-owned attributes unchanged. -/
theorem readPipeline_reads_merged_slug (lib : StdLib) (client : Client) (d : ResourceData)
    (node : PipelineNode) (hq : client.graphql.node d.id = .ok node) :
    (ReadPipeline lib client d).calls
        = Call.node d.id ::
          (match client.rest.NewRequest lib "GET"
              (pipelinePath client.rest.organization node.Slug) none with
            | .ok req => [Call.rest req]
            | .error _ => [])
    ∧ ∀ err, (PipelinesService.Read lib client.rest node.Slug).result = .error err →
        (ReadPipeline lib client d).err = some err
        ∧ graphqlOwned (ReadPipeline lib client d).d = { node with Uuid := "" }
        ∧ restOwned (ReadPipeline lib client d).d = restOwned d := by
  have hslug : (updatePipeline d node).slug = node.Slug := rfl
  constructor
  · have hcalls : (ReadPipeline lib client d).calls
        = Call.node d.id :: (PipelinesService.Read lib client.rest node.Slug).sent.map Call.rest := by
      simp only [ReadPipeline, hq, hslug]
      split <;> rfl
    rw [hcalls, read_sent]
    split <;> rfl
  · intro err herr
    have h : ReadPipeline lib client d
        = { err := some err, d := updatePipeline d node,
            calls := Call.node d.id
              :: (PipelinesService.Read lib client.rest node.Slug).sent.map Call.rest } := by
      simp only [ReadPipeline, hq, hslug, herr]
    rw [h]
    exact ⟨rfl, rfl, rfl⟩

/-- C7 at a handle that holds the slug `old-slug` while the GraphQL endpoint answers with
the slug `api` and the REST endpoint answers 404: the `GET` goes to the path of `api`. -/
theorem readPipeline_reads_merged_slug_witness :
    ((ReadPipeline refLib (acmeClient acceptingGraphQL (answering 404 "\x7b\x7d"))
        { declaredMain with id := "pipeline-1", slug := "old-slug" }).calls.filterMap
          Call.request?).map (fun req => (req.Method, req.URL))
      = [("GET", "https://api.buildkite.com/v2/organizations/acme/pipelines/api")]
    ∧ ∃ err,
        (ReadPipeline refLib (acmeClient acceptingGraphQL (answering 404 "\x7b\x7d"))
          { declaredMain with id := "pipeline-1", slug := "old-slug" }).err = some err
        ∧ graphqlOwned (ReadPipeline refLib (acmeClient acceptingGraphQL (answering 404 "\x7b\x7d"))
            { declaredMain with id := "pipeline-1", slug := "old-slug" }).d
          = { Id := "pipeline-1", Name := "api", Slug := "api" }
        ∧ restOwned (ReadPipeline refLib (acmeClient acceptingGraphQL (answering 404 "\x7b\x7d"))
            { declaredMain with id := "pipeline-1", slug := "old-slug" }).d
          = restOwned declaredMain :=
  ⟨by
      rw [(readPipeline_reads_merged_slug refLib
        (acmeClient acceptingGraphQL (answering 404 "\x7b\x7d"))
        { declaredMain with id := "pipeline-1", slug := "old-slug" }
        { Id := "pipeline-1", Name := "api", Slug := "api" } rfl).1]
      rfl,
    _, (readPipeline_reads_merged_slug refLib
        (acmeClient acceptingGraphQL (answering 404 "\x7b\x7d"))
        { declaredMain with id := "pipeline-1", slug := "old-slug" }
        { Id := "pipeline-1", Name := "api", Slug := "api" } rfl).2 _ rfl⟩

/-- C8, amended: `DeletePipeline` never modifies the handle and issues no GraphQL call.
When the `DELETE` request for `v2/organizations/{org}/pipelines/{slug}`, with the slug of
the handle, can be built, that request is the one remote call, and the operation returns
an error exactly when the call fails: no response, or a status outside [200,299]. When
the request cannot be built, no call is issued and the error of the build is returned. -/
theorem deletePipeline_contract (lib : StdLib) (client : Client) (d : ResourceData) :
    (DeletePipeline lib client d).d = d
    ∧ (∀ c ∈ (DeletePipeline lib client d).calls, c.isREST = true)
    ∧ (∀ req, client.rest.NewRequest lib "DELETE"
          (pipelinePath client.rest.organization d.slug) none = .ok req →
        req.Method = "DELETE"
        ∧ (DeletePipeline lib client d).calls = [Call.rest req]
        ∧ ((DeletePipeline lib client d).err = none
            ↔ ∃ resp, client.rest.client req = .ok resp
                ∧ 200 ≤ resp.StatusCode ∧ resp.StatusCode ≤ 299))
    ∧ (∀ e, client.rest.NewRequest lib "DELETE"
          (pipelinePath client.rest.organization d.slug) none = .error e →
        (DeletePipeline lib client d).calls = [] ∧ (DeletePipeline lib client d).err = some e) := by
  refine ⟨rfl, ?_, ?_, ?_⟩
  · intro c hmem
    simp only [DeletePipeline, List.mem_map] at hmem
    obtain ⟨req, _, hreq⟩ := hmem
    rw [← hreq]
    rfl
  · intro req hreq
    have h : DeletePipeline lib client d
        = { err := (client.rest.Do lib req .nil).err, d := d, calls := [Call.rest req] } := by
      simp only [DeletePipeline, PipelinesService.Delete, hreq, List.map_cons, List.map_nil]
    rw [h]
    exact ⟨(newRequest_ok lib client.rest _ _ _ req hreq).1, rfl,
      do_nil_err_none_iff lib client.rest req⟩
  · intro e he
    have h : DeletePipeline lib client d = { err := some e, d := d, calls := [] } := by
      simp only [DeletePipeline, PipelinesService.Delete, he, List.map_nil]
    rw [h]
    exact ⟨rfl, rfl⟩

/-- C8, amended, at a handle with slug `api` and a REST endpoint that answers 404 (a
repeated delete): one `DELETE`, and an error. -/
theorem deletePipeline_contract_witness :
    (DeletePipeline refLib (acmeClient rejectingGraphQL (answering 404 "\x7b\x7d"))
        { declaredMain with slug := "api" }).calls.map (fun c => c.request?.map (fun req => req.URL))
      = [some "https://api.buildkite.com/v2/organizations/acme/pipelines/api"]
    ∧ ¬ (DeletePipeline refLib (acmeClient rejectingGraphQL (answering 404 "\x7b\x7d"))
        { declaredMain with slug := "api" }).err = none := by
  have h := (deletePipeline_contract refLib (acmeClient rejectingGraphQL (answering 404 "\x7b\x7d"))
    { declaredMain with slug := "api" }).2.2.1
      { Method := "DELETE", URL := "https://api.buildkite.com/v2/organizations/acme/pipelines/api",
        Header := [("Content-Type", "application/json"),
          ("User-Agent", "terraform-provider-buildkite/0.0.1")],
        Body := none } rfl
  refine ⟨by rw [h.2.1]; rfl, fun hnone => ?_⟩
  obtain ⟨resp, hresp, _, h299⟩ := h.2.2.1 hnone
  cases hresp
  exact absurd h299 (by decide)

/-- C8 as stated fails: with the slug `%zz` the path does not parse as a URL, so
`DeletePipeline` returns an error without issuing any remote call. -/
theorem deletePipeline_without_call :
    (DeletePipeline refLib (acmeClient rejectingGraphQL (answering 200 "\x7b\x7d"))
        { declaredMain with slug := "%zz" }).calls.length = 0
    ∧ (DeletePipeline refLib (acmeClient rejectingGraphQL (answering 200 "\x7b\x7d"))
        { declaredMain with slug := "%zz" }).err.isSome = true := by
  decide

/-- C9: `updatePipeline` leaves `branch_configuration` and the twelve provider/trigger
attributes unchanged; `updateRESTPipeline` leaves the id and every GraphQL-owned attribute
unchanged; the two sets make up the whole handle, and no attribute is written by both:
the two merges can be applied in either order with the same result. -/
theorem merges_write_disjoint_fields :
    (∀ (d : ResourceData) (t : PipelineNode), restOwned (updatePipeline d t) = restOwned d)
    ∧ (∀ (d : ResourceData) (p : RESTPipeline),
        graphqlOwned (updateRESTPipeline d p) = graphqlOwned d)
    ∧ (∀ d : ResourceData, ofOwned (graphqlOwned d) (restOwned d) = d)
    ∧ (∀ (d : ResourceData) (t : PipelineNode) (p : RESTPipeline),
        updateRESTPipeline (updatePipeline d t) p = updatePipeline (updateRESTPipeline d p) t
        ∧ graphqlOwned (updateRESTPipeline (updatePipeline d t) p) = { t with Uuid := "" }
        ∧ restOwned (updateRESTPipeline (updatePipeline d t) p)
            = (p.BranchConfiguration, p.Provider.Settings)) :=
  ⟨fun _ _ => rfl, fun _ _ => rfl, fun _ => rfl, fun _ _ _ => ⟨rfl, rfl, rfl⟩⟩

theorem updatePipeline_redeclare (lib : StdLib) (client : Client)
    (declared observed : ResourceData) (node : PipelineNode)
    (hid : observed.id = declared.id)
    (hq : client.graphql.pipelineUpdate declared.id (pipelineVars declared) = .ok node) :
    UpdatePipeline lib client (redeclare declared observed)
      = UpdatePipeline lib client declared := by
  have h1 : (redeclare declared observed).id = declared.id := hid
  have h2 : pipelineVars (redeclare declared observed) = pipelineVars declared := rfl
  have h3 : updatePipeline (redeclare declared observed) node = updatePipeline declared node :=
    rfl
  simp only [UpdatePipeline, h1, h2, hq, h3]

/-- C10: the remote being a function of the request (the same PATCH gets the same
answer) whose update mutation answers with the id it was addressed by, a second
`UpdatePipeline` under the same declaration, run on the handle the first run left (its
id, slug and webhook URL, the declared attributes as declared), ends like the first: the
same observed `branch_configuration` and provider/trigger attributes, and indeed the same
handle and the same error. -/
theorem updatePipeline_idempotent (lib : StdLib) (client : Client) (declared : ResourceData)
    (hremote : ∀ node,
      client.graphql.pipelineUpdate declared.id (pipelineVars declared) = .ok node →
      node.Id = declared.id) :
    restOwned (UpdatePipeline lib client
        (redeclare declared (UpdatePipeline lib client declared).d)).d
      = restOwned (UpdatePipeline lib client declared).d
    ∧ (UpdatePipeline lib client (redeclare declared (UpdatePipeline lib client declared).d)).d
      = (UpdatePipeline lib client declared).d
    ∧ (UpdatePipeline lib client (redeclare declared (UpdatePipeline lib client declared).d)).err
      = (UpdatePipeline lib client declared).err := by
  have key : UpdatePipeline lib client (redeclare declared (UpdatePipeline lib client declared).d)
      = UpdatePipeline lib client declared := by
    cases hq : client.graphql.pipelineUpdate declared.id (pipelineVars declared) with
    | error e =>
      have h : UpdatePipeline lib client declared
          = { err := some e, d := declared,
              calls := [Call.pipelineUpdate declared.id (pipelineVars declared)] } := by
        simp only [UpdatePipeline, hq]
      have hr : redeclare declared (UpdatePipeline lib client declared).d = declared := by
        rw [h]; rfl
      rw [hr]
    | ok node =>
      have hid : (UpdatePipeline lib client declared).d.id = declared.id := by
        rw [← hremote node hq]
        simp only [UpdatePipeline, hq]
        split <;> rfl
      exact updatePipeline_redeclare lib client declared _ node hid hq
  rw [key]
  exact ⟨rfl, rfl, rfl⟩

/-- C10 at the declaration `declaredMain` for the pipeline `pipeline-1`, with a REST
endpoint that echoes the declared settings: both runs observe branch configuration
`main`, trigger mode `fork`, tags and pull requests built. -/
theorem updatePipeline_idempotent_witness :
    restOwned (UpdatePipeline refLib (acmeClient acceptingGraphQL (answering 200 echoMain))
        { declaredMain with id := "pipeline-1" }).d
      = ("main", { TriggerMode := "fork", BuildTags := true, BuildPullRequests := true })
    ∧ restOwned (UpdatePipeline refLib (acmeClient acceptingGraphQL (answering 200 echoMain))
        (redeclare { declaredMain with id := "pipeline-1" }
          (UpdatePipeline refLib (acmeClient acceptingGraphQL (answering 200 echoMain))
            { declaredMain with id := "pipeline-1" }).d)).d
      = restOwned (UpdatePipeline refLib (acmeClient acceptingGraphQL (answering 200 echoMain))
        { declaredMain with id := "pipeline-1" }).d :=
  ⟨by decide,
    (updatePipeline_idempotent refLib (acmeClient acceptingGraphQL (answering 200 echoMain))
      { declaredMain with id := "pipeline-1" }
      (fun node hq => by cases hq; rfl)).1⟩

/-! ### The REST view between `getRESTPipeline` and `updateRESTPipeline` -/

/-- C11: for every handle `d`, `getRESTPipeline d` carries the declared trigger settings in
`ProviderSettings` (with the slug and the branch configuration) and leaves
`Provider.Settings` all zero; `updateRESTPipeline` reads `BranchConfiguration` and
`Provider.Settings` only, never `ProviderSettings` or `Slug`; hence merging the view as
built, `updateRESTPipeline d (getRESTPipeline d)`, keeps `branch_configuration` and the
GraphQL-owned attributes, and sets `trigger_mode` and
`pull_request_branch_filter_configuration` to the empty string and the ten boolean
trigger attributes to false, whatever was declared. -/
theorem restView_written_and_read_through_different_fields :
    (∀ d : ResourceData,
      (getRESTPipeline d).Slug = d.slug
      ∧ (getRESTPipeline d).BranchConfiguration = d.branch_configuration
      ∧ (getRESTPipeline d).ProviderSettings = (restOwned d).2
      ∧ (getRESTPipeline d).Provider.Settings
          = { TriggerMode := "", BuildPullRequests := false,
              PullRequestBranchFilterEnabled := false,
              PullRequestBranchFilterConfiguration := "",
              SkipPullRequestBuildsForExistingCommits := false,
              BuildPullRequestForks := false, PrefixPullRequestForkBranchNames := false,
              BuildTags := false, PublishCommitStatus := false,
              PublishCommitStatusPerStep := false, SeparatePullRequestStatuses := false,
              PublishBlockedAsPending := false })
    ∧ (∀ (d : ResourceData) (p : RESTPipeline) (slug : String) (s : SourceProviderSettings),
        updateRESTPipeline d { p with Slug := slug, ProviderSettings := s }
          = updateRESTPipeline d p)
    ∧ (∀ d : ResourceData,
        (updateRESTPipeline d (getRESTPipeline d)).branch_configuration = d.branch_configuration
        ∧ graphqlOwned (updateRESTPipeline d (getRESTPipeline d)) = graphqlOwned d
        ∧ (updateRESTPipeline d (getRESTPipeline d)).trigger_mode = ""
        ∧ (updateRESTPipeline d (getRESTPipeline d)).pull_request_branch_filter_configuration = ""
        ∧ (updateRESTPipeline d (getRESTPipeline d)).build_pull_requests = false
        ∧ (updateRESTPipeline d (getRESTPipeline d)).pull_request_branch_filter_enabled = false
        ∧ (updateRESTPipeline d (getRESTPipeline d)).skip_pull_request_builds_for_existing_commits
            = false
        ∧ (updateRESTPipeline d (getRESTPipeline d)).build_pull_request_forks = false
        ∧ (updateRESTPipeline d (getRESTPipeline d)).prefix_pull_request_fork_branch_names = false
        ∧ (updateRESTPipeline d (getRESTPipeline d)).build_tags = false
        ∧ (updateRESTPipeline d (getRESTPipeline d)).publish_commit_status = false
        ∧ (updateRESTPipeline d (getRESTPipeline d)).publish_commit_status_per_step = false
        ∧ (updateRESTPipeline d (getRESTPipeline d)).separate_pull_request_statuses = false
        ∧ (updateRESTPipeline d (getRESTPipeline d)).publish_blocked_as_pending = false) :=
  ⟨fun _ => ⟨rfl, rfl, rfl, rfl⟩, fun _ _ _ _ => rfl,
   fun _ => ⟨rfl, rfl, rfl, rfl, rfl, rfl, rfl, rfl, rfl, rfl, rfl, rfl, rfl, rfl⟩⟩

/-- The same through `CreatePipeline`: with the declaration `declaredMain` and a REST
endpoint that answers 200 with the empty object, the operation succeeds and the handle
ends with branch configuration `main` and every trigger attribute at its zero value. -/
theorem createPipeline_unfilled_answer_zeroes_settings :
    (CreatePipeline refLib (acmeClient acceptingGraphQL (answering 200 "\x7b\x7d"))
        declaredMain).err.isNone = true
    ∧ restOwned (CreatePipeline refLib (acmeClient acceptingGraphQL (answering 200 "\x7b\x7d"))
        declaredMain).d = ("main", {})
    ∧ restOwned declaredMain
        = ("main", { TriggerMode := "fork", BuildPullRequests := true,
                     SkipPullRequestBuildsForExistingCommits := true,
                     PrefixPullRequestForkBranchNames := true, BuildTags := true,
                     PublishCommitStatus := true }) := by
  decide

end Buildkite
